import Mathlib

/-!
Verification development for the xat-api chat controller
(src/xat-api/src/controllers/chatController.js).

The JavaScript controller is shallowly embedded as pure Lean functions:
strings are lists of characters, the Sequelize store is an explicit record
of conversation and prompt lists, the upstream Ollama server is an explicit
outcome parameter, and the server-sent-event (SSE) stream written to the
client connection is an explicit list of events.
-/

/-- Character strings of the JavaScript source, modelled as lists of chars. -/
abbrev Str := List Char

/-- The opening-brace character (written via its code point). -/
def obrace : Char := Char.ofNat 123

/-- The closing-brace character (written via its code point). -/
def cbrace : Char := Char.ofNat 125

/-- The backtick character (written via its code point). -/
def btick : Char := Char.ofNat 96

/-- JavaScript whitespace as matched by the regex class used in the
controller fence-stripping code and by the common cases of
`String.prototype.trim`: space, tab, newline, carriage return, vertical
tab, form feed. -/
def isJsWsChar (c : Char) : Bool :=
  c = ' ' || c = '\t' || c = '\n' || c = '\r' ||
  c = Char.ofNat 11 || c = Char.ofNat 12

/-- JSON whitespace (RFC 8259): space, tab, newline, carriage return. -/
def isJsonWs (c : Char) : Bool :=
  c = ' ' || c = '\t' || c = '\n' || c = '\r'

/-- Remove leading and trailing characters satisfying `p`. -/
def trimBy (p : Char → Bool) (s : Str) : Str :=
  (((s.dropWhile p).reverse).dropWhile p).reverse

/-- JavaScript `String.prototype.trim`. -/
def trimChars (s : Str) : Str := trimBy isJsWsChar s

/-- Trimming by JSON whitespace, as `JSON.parse` allows around a value. -/
def trimJson (s : Str) : Str := trimBy isJsonWs s

/-- Modelled from the spec: `validateUUID` from
src/xat-api/src/middleware/validators is not among the sources; the spec
calls identifiers UUIDs, so well-formedness is the canonical
8-4-4-4-12 hexadecimal format. -/
def validateUUID (s : Str) : Bool :=
  s.length = 36 &&
  s.enum.all fun ic =>
    if ic.1 = 8 || ic.1 = 13 || ic.1 = 18 || ic.1 = 23 then
      ic.2 = '-'
    else
      ic.2.isDigit || ('a' ≤ ic.2 && ic.2 ≤ 'f') || ('A' ≤ ic.2 && ic.2 ≤ 'F')

/-! ## Persisted records (Sequelize models, accessed by the controller) -/

/-- A persisted Conversation record (only the key matters to the claims). -/
structure ConversationRec where
  id : Str
deriving DecidableEq

/-- A persisted Prompt record, as created by the controller. -/
structure PromptRec where
  id : Str
  prompt : Str
  response : Str
  model : Str
  stream : Bool
  conversationId : Str
  createdAt : Nat
deriving DecidableEq

/-- The conversation store: Conversation and Prompt tables. -/
structure Store where
  convs : List ConversationRec
  prompts : List PromptRec
deriving DecidableEq

/-- `Conversation.findByPk`: look a conversation up by its key. -/
def findConv (st : Store) (cid : Str) : Option ConversationRec :=
  st.convs.find? fun c => decide (c.id = cid)

/-- Append a prompt row (`Prompt.create`). -/
def addPrompt (st : Store) (p : PromptRec) : Store :=
  { st with prompts := st.prompts ++ [p] }

/-! ## generateResponse (non-streaming upstream call) -/

/-- Outcome of the single blocking upstream call made by `generateResponse`:
either the response text of a successful call, or any axios failure
(connection error, non-success status, 30 s timeout). -/
inductive UpstreamSingle where
  | ok (text : Str)
  | failure
deriving DecidableEq

/-- The fixed apology text returned by `generateResponse` when the upstream
call fails (chatController.js line 141). -/
def apology : Str :=
  "Ho sento, no he pogut generar una resposta en aquest moment.".data

/-- `generateResponse` in non-streaming mode (chatController.js 66-143): a
successful call returns `response.data.response.trim()`; every failure is
caught and the apology placeholder is returned instead of an exception. -/
def generateResponse : UpstreamSingle → Str
  | .ok t => trimChars t
  | .failure => apology

/-! ## SSE events and the streaming relay -/

/-- One server-sent event written to the client connection. -/
inductive SSEvent where
  | start (conversationId promptId prompt : Str)
  | chunk (conversationId promptId fragment : Str)
  | sessionEnd (conversationId promptId fullResponse : Str)
  | sseError
deriving DecidableEq

/-- One upstream stream `data` payload: either text that does not parse as
JSON, or a parsed object with its optional `response` string and `done`
flag. -/
inductive RawChunk where
  | malformed
  | parsed (response? : Option Str) (done : Bool)
deriving DecidableEq

/-- State accumulated by the `data` handler of `processStreamingResponse`:
events written so far, the `fullResponse` accumulator, the Prompt row
update (if `prompt.update` ran), whether `res.end()` ran, and whether a
malformed chunk made the async handler reject (an unhandled rejection that
never reaches the caller's catch). -/
structure ChunkState where
  events : List SSEvent
  fullResponse : Str
  promptResponse? : Option Str
  ended : Bool
  unhandled : Bool
deriving DecidableEq

/-- One step of the `data` handler (chatController.js 308-338). A parsed
chunk with a truthy `response` (present and non-empty) is appended to the
accumulator and forwarded as a chunk event; a chunk with `done` updates the
Prompt row to the accumulated text, writes the end event and ends the
response. A chunk that fails `JSON.parse` throws inside the async callback,
which surfaces as an unhandled rejection and changes nothing else. -/
def stepChunk (cid pid : Str) (st : ChunkState) (c : RawChunk) : ChunkState :=
  match c with
  | .malformed => { st with unhandled := true }
  | .parsed response? done =>
    let st1 :=
      match response? with
      | some s =>
        if s = [] then st
        else
          { st with
            fullResponse := st.fullResponse ++ s
            events := st.events ++ [SSEvent.chunk cid pid s] }
      | none => st
    if done then
      { st1 with
        promptResponse? := some st1.fullResponse
        events := st1.events ++ [SSEvent.sessionEnd cid pid st1.fullResponse]
        ended := true }
    else st1

/-- The whole `data`-handler run of `processStreamingResponse` over the
sequence of upstream chunks, in arrival order. -/
def processStreamingResponse (cid pid : Str) (chunks : List RawChunk) : ChunkState :=
  chunks.foldl (stepChunk cid pid) ⟨[], [], none, false, false⟩

/-- Behaviour of the upstream connection opened by
`processStreamingResponse`: either `axios.post` rejects (the returned
promise rejects before any chunk), or the stream delivers `chunks` and then
optionally emits an `error` event (`midError`). -/
inductive StreamUpstream where
  | connectError
  | stream (chunks : List RawChunk) (midError : Bool)
deriving DecidableEq

/-- Result of one streaming session as driven by
`handleStreamingResponse` (chatController.js 209-249): the SSE events
written, whether the response was ended, whether an exception escaped to
the process (uncaught exception or unhandled rejection), and the store. -/
structure StreamResult where
  events : List SSEvent
  closed : Bool
  crashed : Bool
  store : Store
deriving DecidableEq

/-- `handleStreamingResponse`: creates the Prompt row with empty response,
writes the start event, then awaits `processStreamingResponse`. Only a
rejection of that promise (axios.post failing to connect) reaches the
`catch` that writes the SSE error event and ends the response. Once the
stream handlers are installed the awaited promise has already resolved, so
a mid-stream `error` event makes the installed listener rethrow outside any
try/catch: no SSE event is written, the response is not ended, and the
exception escapes to the process. -/
def handleStreamingResponse (st : Store) (convId ptext mdl freshPid : Str)
    (now : Nat) (u : StreamUpstream) : StreamResult :=
  let p0 : PromptRec :=
    { id := freshPid, prompt := trimChars ptext, response := [], model := mdl
      stream := true, conversationId := convId, createdAt := now }
  let startEv := SSEvent.start convId freshPid (trimChars ptext)
  match u with
  | .connectError =>
    { events := [startEv, SSEvent.sseError], closed := true, crashed := false
      store := addPrompt st p0 }
  | .stream chunks midError =>
    let fin := processStreamingResponse convId freshPid chunks
    let pFinal :=
      match fin.promptResponse? with
      | some r => { p0 with response := r }
      | none => p0
    { events := startEv :: fin.events, closed := fin.ended
      crashed := midError || fin.unhandled, store := addPrompt st pFinal }

/-! ## handleNormalResponse and registerPrompt -/

/-- Result of `handleNormalResponse` (chatController.js 255-291): the 201
JSON body fields and the store with the new Prompt row. -/
structure NormalResult where
  status : Nat
  conversationId : Str
  promptId : Str
  promptText : Str
  responseText : Str
  store : Store
deriving DecidableEq

/-- `handleNormalResponse`: one blocking `generateResponse` call (which
never throws: failures become the apology text), then `Prompt.create` with
that text and a 201 JSON reply echoing the created row. -/
def handleNormalResponse (st : Store) (convId ptext mdl freshPid : Str)
    (now : Nat) (u : UpstreamSingle) : NormalResult :=
  let resp := generateResponse u
  let p : PromptRec :=
    { id := freshPid, prompt := trimChars ptext, response := resp, model := mdl
      stream := false, conversationId := convId, createdAt := now }
  { status := 201, conversationId := convId, promptId := freshPid
    promptText := p.prompt, responseText := p.response
    store := addPrompt st p }

/-- Request body of `POST /api/chat/prompt` after the model default has
been applied. -/
structure ReqBody where
  conversationId : Option Str
  prompt : Option Str
  model : Str
  stream : Bool

/-- The HTTP-level outcome of `registerPrompt`. -/
inductive RegResponse where
  | badRequest (status : Nat)
  | json (status : Nat) (conversationId promptId promptText responseText : Str)
  | sse (events : List SSEvent) (closed : Bool) (crashed : Bool)
deriving DecidableEq

/-- Result of handling one prompt request: the response sent, the store
afterwards, and whether any upstream inference call was attempted. -/
structure RegResult where
  response : RegResponse
  store : Store
  upstreamCalled : Bool

/-- The tail of `registerPrompt` after the conversation is resolved:
dispatch on the `stream` flag to the streaming or the normal handler. -/
def afterConversation (st : Store) (convId ptext mdl freshPid : Str)
    (now : Nat) (strm : Bool) (uN : UpstreamSingle) (uS : StreamUpstream) :
    RegResult :=
  if strm then
    let r := handleStreamingResponse st convId ptext mdl freshPid now uS
    ⟨.sse r.events r.closed r.crashed, r.store, true⟩
  else
    let r := handleNormalResponse st convId ptext mdl freshPid now uN
    ⟨.json r.status r.conversationId r.promptId r.promptText r.responseText,
     r.store, true⟩

/-- `registerPrompt` (chatController.js 149-203): reject an absent or
whitespace-only prompt with 400 before anything else; then resolve the
conversation (validate a supplied identifier, rejecting malformed ones with
400; find it or create it, or create one under a fresh identifier when none
was supplied); then dispatch on the streaming flag. -/
def registerPrompt (st : Store) (body : ReqBody) (freshCid freshPid : Str)
    (now : Nat) (uN : UpstreamSingle) (uS : StreamUpstream) : RegResult :=
  match body.prompt with
  | none => ⟨.badRequest 400, st, false⟩
  | some ptext =>
    if trimChars ptext = [] then ⟨.badRequest 400, st, false⟩
    else
      match body.conversationId with
      | some cid =>
        if validateUUID cid then
          match findConv st cid with
          | some c =>
            afterConversation st c.id ptext body.model freshPid now
              body.stream uN uS
          | none =>
            afterConversation
              { st with convs := st.convs ++ [⟨cid⟩] } cid ptext body.model
              freshPid now body.stream uN uS
        else ⟨.badRequest 400, st, false⟩
      | none =>
        afterConversation
          { st with convs := st.convs ++ [⟨freshCid⟩] } freshCid ptext
          body.model freshPid now body.stream uN uS

/-! ## getConversation -/

/-- The ordering the controller requests from the store:
ascending `createdAt`. -/
def byCreatedAt (p q : PromptRec) : Prop := p.createdAt ≤ q.createdAt

instance : DecidableRel byCreatedAt := fun p q => Nat.decLe p.createdAt q.createdAt

instance : IsTotal PromptRec byCreatedAt := ⟨fun p q => Nat.le_total p.createdAt q.createdAt⟩

instance : IsTrans PromptRec byCreatedAt := ⟨fun _ _ _ h h2 => Nat.le_trans h h2⟩

/-- The Prompt rows the store holds for one conversation, in whatever
order the storage layer keeps them. -/
def promptsOf (st : Store) (cid : Str) : List PromptRec :=
  st.prompts.filter fun p => decide (p.conversationId = cid)

/-- The conversation body returned by `getConversation`: the identifier
with its Prompt rows. -/
structure ConvView where
  id : Str
  prompts : List PromptRec
deriving DecidableEq

/-- HTTP outcome of `GET /api/chat/conversation/:id`. -/
inductive GetConvResult where
  | badRequest (status : Nat)
  | notFound (status : Nat)
  | okConv (status : Nat) (view : ConvView)
deriving DecidableEq

/-- `getConversation` (chatController.js 349-387): 400 for a malformed
identifier, 404 when unknown, otherwise the conversation with its prompts.
The include uses `order: [[Prompt, createdAt, ASC]]`; the store executes
that clause, modelled here as an insertion sort on `createdAt`. -/
def getConversation (st : Store) (id : Str) : GetConvResult :=
  if validateUUID id then
    match findConv st id with
    | none => .notFound 404
    | some c =>
      .okConv 200 ⟨c.id, List.insertionSort byCreatedAt (promptsOf st c.id)⟩
  else .badRequest 400

/-! ## Code-fence stripping (analyzeSentiment, chatController.js 436-442) -/

/-- Does the text begin with three backticks? (`startsWith` on the
three-backtick fence). -/
def startsT3 (l : Str) : Bool := decide (l.take 3 = [btick, btick, btick])

/-- Does the text begin with a ```json fence marker? -/
def startsTJson (l : Str) : Bool :=
  decide (l.take 7 = [btick, btick, btick, 'j', 's', 'o', 'n'])

/-- Does the text contain three consecutive backticks anywhere? -/
def hasTicks3 : Str → Bool
  | [] => false
  | c :: cs => startsT3 (c :: cs) || hasTicks3 cs

/-- Fuel-driven scan for the JavaScript global regex replace of
three backticks followed by greedy whitespace with the empty string:
at each position, if the fence pattern matches, the fence and the
whitespace run after it are removed and scanning resumes after the match,
exactly as a /g regex replace does. -/
def repT3Fuel : Nat → Str → Str
  | 0, l => l
  | _ + 1, [] => []
  | n + 1, c :: cs =>
    if startsT3 (c :: cs) then
      repT3Fuel n ((cs.drop 2).dropWhile isJsWsChar)
    else c :: repT3Fuel n cs

/-- The replace of pattern three-backticks + whitespace, with enough fuel. -/
def repT3 (l : Str) : Str := repT3Fuel l.length l

/-- Fuel-driven scan for the global regex replace of a ```json marker
followed by greedy whitespace with the empty string. -/
def repTJsonFuel : Nat → Str → Str
  | 0, l => l
  | _ + 1, [] => []
  | n + 1, c :: cs =>
    if startsTJson (c :: cs) then
      repTJsonFuel n ((cs.drop 6).dropWhile isJsWsChar)
    else c :: repTJsonFuel n cs

/-- The replace of pattern ```json + whitespace, with enough fuel. -/
def repTJson (l : Str) : Str := repTJsonFuel l.length l

/-- The markdown-stripping prelude of the sentiment parser: trim, then if
the text starts with a ```json fence apply both global replaces, else if it
starts with a plain fence apply the three-backtick replace only. -/
def stripFences (response : Str) : Str :=
  let jsonText := trimChars response
  if startsTJson jsonText then repT3 (repTJson jsonText)
  else if startsT3 jsonText then repT3 jsonText
  else jsonText

/-! ## A JSON value parser (the JSON.parse builtin used by the controller) -/

/-- JSON values. JSON numbers are modelled as rationals, which represent
every JSON numeric literal exactly. -/
inductive Json where
  | jnull
  | jbool (b : Bool)
  | jnum (q : Rat)
  | jstr (s : Str)
  | jarr (elems : List Json)
  | jobj (fields : List (Str × Json))

/-- Hexadecimal digit value. -/
def hexVal (c : Char) : Option Nat :=
  if c.isDigit then some (c.toNat - 48)
  else if 'a' ≤ c && c ≤ 'f' then some (c.toNat - 87)
  else if 'A' ≤ c && c ≤ 'F' then some (c.toNat - 55)
  else none

/-- Single-character JSON string escapes. -/
def escChar (c : Char) : Option Char :=
  if c = '"' then some '"'
  else if c = '\\' then some '\\'
  else if c = '/' then some '/'
  else if c = 'b' then some (Char.ofNat 8)
  else if c = 'f' then some (Char.ofNat 12)
  else if c = 'n' then some '\n'
  else if c = 'r' then some '\r'
  else if c = 't' then some '\t'
  else none

/-- Parse a JSON string body after the opening quote; returns the decoded
content and the rest after the closing quote. Unescaped control characters
and invalid escapes are rejected, as `JSON.parse` rejects them. -/
def parseStringBody : Str → Option (Str × Str)
  | [] => none
  | c :: cs =>
    if c = '"' then some ([], cs)
    else if c = '\\' then
      match cs with
      | [] => none
      | e :: cs1 =>
        if e = 'u' then
          match cs1 with
          | a :: b :: c2 :: d :: cs2 =>
            match hexVal a, hexVal b, hexVal c2, hexVal d with
            | some va, some vb, some vc, some vd =>
              (parseStringBody cs2).map fun p =>
                (Char.ofNat (va * 4096 + vb * 256 + vc * 16 + vd) :: p.1, p.2)
            | _, _, _, _ => none
          | _ => none
        else
          match escChar e with
          | some ec => (parseStringBody cs1).map fun p => (ec :: p.1, p.2)
          | none => none
    else if c.toNat < 32 then none
    else (parseStringBody cs).map fun p => (c :: p.1, p.2)

/-- Digit run to a natural number. -/
def digitsToNat (ds : Str) : Nat :=
  ds.foldl (fun a c => a * 10 + (c.toNat - 48)) 0

/-- Powers of ten. -/
def pow10 : Nat → Nat
  | 0 => 1
  | n + 1 => 10 * pow10 n

/-- The exact rational value of a decimal literal with signed mantissa `m`
and decimal exponent `e` (the value is `m * 10 ^ e`). -/
def decValue (m : Int) (e : Int) : Rat :=
  if 0 ≤ e then mkRat (m * (pow10 e.toNat : Nat)) 1
  else mkRat m (pow10 (-e).toNat)

/-- Parse a JSON number literal (RFC 8259 grammar: optional minus, integer
part without leading zeros, optional fraction, optional exponent) into a
rational and the rest of the input. -/
def parseNumber (s : Str) : Option (Rat × Str) :=
  let signed : Bool × Str :=
    match s with
    | '-' :: r => (true, r)
    | _ => (false, s)
  let neg := signed.1
  let s1 := signed.2
  let ispan := s1.span Char.isDigit
  let ids := ispan.1
  let s2 := ispan.2
  if ids = [] then none
  else if 1 < ids.length && ids.head? = some '0' then none
  else
    let fspan : Option (Str × Str) :=
      match s2 with
      | '.' :: r =>
        let fs := r.span Char.isDigit
        if fs.1 = [] then none else some fs
      | _ => some ([], s2)
    match fspan with
    | none => none
    | some (fds, s3) =>
      let espan : Option (Bool × Str × Str) :=
        match s3 with
        | e :: r =>
          if e = 'e' || e = 'E' then
            let sr : Bool × Str :=
              match r with
              | '-' :: r2 => (true, r2)
              | '+' :: r2 => (false, r2)
              | _ => (false, r)
            let es := sr.2.span Char.isDigit
            if es.1 = [] then none else some (sr.1, es.1, es.2)
          else some (false, [], s3)
        | [] => some (false, [], s3)
      match espan with
      | none => none
      | some (eneg, eds, s4) =>
        let mant : Int :=
          if neg then -(digitsToNat (ids ++ fds) : Int)
          else (digitsToNat (ids ++ fds) : Int)
        let e10 : Int :=
          (if eneg then -(digitsToNat eds : Int) else (digitsToNat eds : Int)) -
            (fds.length : Int)
        some (decValue mant e10, s4)

/-- Parsing modes of the single fuel-driven JSON parser: a value, the
fields of an object after its opening brace, the elements of an array
after its opening bracket. -/
inductive PMode where
  | val
  | fields
  | elems

/-- Partial results of the fuel-driven JSON parser. -/
inductive PRes where
  | v (j : Json)
  | fs (l : List (Str × Json))
  | es (l : List Json)

/-- The recursive JSON grammar, structurally recursive on fuel so that
every application to a concrete input reduces. -/
def parseJ : Nat → PMode → Str → Option (PRes × Str)
  | 0, _, _ => none
  | n + 1, .val, s0 =>
    match s0.dropWhile isJsonWs with
    | [] => none
    | c :: cs =>
      if c = obrace then
        match (cs.dropWhile isJsonWs) with
        | c1 :: cs1 =>
          if c1 = cbrace then some (.v (.jobj []), cs1)
          else
            (parseJ n .fields (c1 :: cs1)).bind fun pr =>
              match pr with
              | (.fs l, r) => some (.v (.jobj l), r)
              | _ => none
        | [] => none
      else if c = '[' then
        match (cs.dropWhile isJsonWs) with
        | c1 :: cs1 =>
          if c1 = ']' then some (.v (.jarr []), cs1)
          else
            (parseJ n .elems (c1 :: cs1)).bind fun pr =>
              match pr with
              | (.es l, r) => some (.v (.jarr l), r)
              | _ => none
        | [] => none
      else if c = '"' then
        (parseStringBody cs).map fun p => (.v (.jstr p.1), p.2)
      else if c = 't' then
        match cs with
        | 'r' :: 'u' :: 'e' :: r => some (.v (.jbool true), r)
        | _ => none
      else if c = 'f' then
        match cs with
        | 'a' :: 'l' :: 's' :: 'e' :: r => some (.v (.jbool false), r)
        | _ => none
      else if c = 'n' then
        match cs with
        | 'u' :: 'l' :: 'l' :: r => some (.v (.jnull), r)
        | _ => none
      else
        (parseNumber (c :: cs)).map fun p => (.v (.jnum p.1), p.2)
  | n + 1, .fields, s0 =>
    match s0 with
    | c :: cs =>
      if c = '"' then
        match parseStringBody cs with
        | some (key, r1) =>
          match r1.dropWhile isJsonWs with
          | ':' :: r2 =>
            (parseJ n .val r2).bind fun pr =>
              match pr with
              | (.v jv, r3) =>
                match r3.dropWhile isJsonWs with
                | ',' :: r4 =>
                  (parseJ n .fields (r4.dropWhile isJsonWs)).bind fun pr2 =>
                    match pr2 with
                    | (.fs l, r5) => some (.fs ((key, jv) :: l), r5)
                    | _ => none
                | c5 :: r5 =>
                  if c5 = cbrace then some (.fs [(key, jv)], r5) else none
                | [] => none
              | _ => none
          | _ => none
        | none => none
      else none
    | [] => none
  | n + 1, .elems, s0 =>
    (parseJ n .val s0).bind fun pr =>
      match pr with
      | (.v jv, r1) =>
        match r1.dropWhile isJsonWs with
        | ',' :: r2 =>
          (parseJ n .elems r2).bind fun pr2 =>
            match pr2 with
            | (.es l, r3) => some (.es (jv :: l), r3)
            | _ => none
        | c2 :: r2 => if c2 = ']' then some (.es [jv], r2) else none
        | [] => none
      | _ => none

/-- `JSON.parse`: whitespace, one value, whitespace, end of input. -/
def jsonParse (s : Str) : Option Json :=
  let t := trimJson s
  match parseJ (t.length + 2) .val t with
  | some (.v j, rest) =>
    if rest.dropWhile isJsonWs = [] then some j else none
  | _ => none

/-! ## analyzeSentiment -/

/-- Property access on a parsed JSON document: the named field of a
top-level object (last occurrence wins, as in JavaScript), undefined
otherwise. -/
def getField (j : Json) (k : Str) : Option Json :=
  match j with
  | .jobj fs => fs.foldl (fun acc kv => if kv.1 = k then some kv.2 else acc) none
  | _ => none

/-- JavaScript truthiness of a parsed JSON value (the
`!analysisResult.sentiment` check). -/
def jsTruthy : Json → Bool
  | .jnull => false
  | .jbool b => b
  | .jnum q => decide (q ≠ 0)
  | .jstr s => decide (s ≠ [])
  | .jarr _ => true
  | .jobj _ => true

/-- The clamp of the parsed score into 0..10
(`Math.max(0, Math.min(10, score))`). -/
def clampScore (q : Rat) : Rat := max 0 (min 10 q)

/-- The sentiment parser applied to raw model output
(chatController.js 434-465): strip fences, `JSON.parse`, require a numeric
`score` field and a truthy `sentiment` field, clamp the score. `none` is
the parse-failure path that the endpoint reports as a 500. -/
def sentimentOfResponse (response : Str) : Option (Rat × Json) :=
  match jsonParse (stripFences response) with
  | some j =>
    match getField j "score".data with
    | some (.jnum q) =>
      match getField j "sentiment".data with
      | some sv => if jsTruthy sv then some (clampScore q, sv) else none
      | none => none
    | _ => none
  | none => none

/-- The SentimentAnalysis row created on success. -/
structure SentimentRec where
  id : Str
  text : Str
  score : Rat
  sentiment : Json
  model : Str
  respostaCompleta : Str

/-- HTTP outcome of `POST /api/chat/sentiment-analysis`: 400 for invalid
text, 500 when the model output cannot be parsed, or 201 with the created
row and the score echoed in the body. -/
inductive SentResult where
  | badRequest (status : Nat)
  | serverError (status : Nat)
  | created (status : Nat) (stored : SentimentRec) (bodyScore : Rat)

/-- `analyzeSentiment` (chatController.js 393-499): validate the text,
call `generateResponse` (which degrades failures to the apology text),
parse the output with the sentiment parser, and either fail with 500 or
persist a SentimentAnalysis row and reply 201 with the clamped score. -/
def analyzeSentiment (text? : Option Str) (mdl freshId : Str)
    (u : UpstreamSingle) : SentResult :=
  match text? with
  | none => .badRequest 400
  | some text =>
    if trimChars text = [] then .badRequest 400
    else
      let response := generateResponse u
      match sentimentOfResponse response with
      | none => .serverError 500
      | some (q, sv) =>
        let rec0 : SentimentRec :=
          { id := freshId, text := text, score := q, sentiment := sv
            model := mdl, respostaCompleta := response }
        .created 201 rec0 q

/-! ## Statement-level helpers -/

/-- A text wrapped in ```json code-fence markup, as in the spec example. -/
def fenceJson (t : Str) : Str :=
  btick :: btick :: btick :: 'j' :: 's' :: 'o' :: 'n' :: '\n' ::
    (t ++ ['\n', btick, btick, btick])

/-- A text wrapped in plain ``` code-fence markup. -/
def fencePlain (t : Str) : Str :=
  btick :: btick :: btick :: '\n' :: (t ++ ['\n', btick, btick, btick])

/-- The fragments of a chunk sequence that the data handler treats as
truthy: present and non-empty `response` fields, in order. -/
def liveFrags (rs : List (Option Str)) : List Str :=
  rs.filterMap fun r? =>
    match r? with
    | some s => if s = [] then none else some s
    | none => none

/-- Is an SSE event a chunk event? -/
def isChunkEv : SSEvent → Bool
  | .chunk _ _ _ => true
  | _ => false

/-- A JSON object text that contains a triple backtick inside a string
literal: the counterexample input for fence-strip transparency. -/
def cexText : Str :=
  ("\x7b\"score\":7,\"sentiment\":\"a".data) ++ [btick, btick, btick] ++
    "b\"\x7d".data


/-! ## Claim theorems -/

/-- C2: for every non-streaming prompt request whose upstream inference
call fails, exactly one Prompt record is still persisted, with the
apology placeholder as its response text, and the caller receives a
non-fatal 201 reply carrying that placeholder instead of an abort. -/
theorem C2_upstream_failure_persists_one_prompt (st : Store)
    (convId ptext mdl freshPid : Str) (now : Nat) :
    (handleNormalResponse st convId ptext mdl freshPid now .failure).store.prompts
        = st.prompts ++
          [{ id := freshPid, prompt := trimChars ptext, response := apology
             model := mdl, stream := false, conversationId := convId
             createdAt := now }] ∧
    (handleNormalResponse st convId ptext mdl freshPid now .failure).responseText
        = apology ∧
    (handleNormalResponse st convId ptext mdl freshPid now .failure).status = 201 :=
  ⟨rfl, rfl, rfl⟩

/-- C7: a prompt request whose prompt text is absent, empty or
whitespace-only is rejected with 400 before any upstream call is attempted
and before any Conversation or Prompt record is created. -/
theorem C7_empty_prompt_rejected_early (st : Store) (cid? : Option Str)
    (mdl : Str) (strm : Bool) (freshCid freshPid : Str) (now : Nat)
    (uN : UpstreamSingle) (uS : StreamUpstream) (p? : Option Str)
    (h : p? = none ∨ ∃ s, p? = some s ∧ trimChars s = []) :
    (registerPrompt st ⟨cid?, p?, mdl, strm⟩ freshCid freshPid now uN uS).response
        = .badRequest 400 ∧
    (registerPrompt st ⟨cid?, p?, mdl, strm⟩ freshCid freshPid now uN uS).store
        = st ∧
    (registerPrompt st ⟨cid?, p?, mdl, strm⟩ freshCid freshPid now uN uS).upstreamCalled
        = false := by
  rcases h with h | ⟨s, h, hs⟩
  · subst h
    exact ⟨rfl, rfl, rfl⟩
  · subst h
    refine ⟨?_, ?_, ?_⟩ <;> simp [registerPrompt, hs]

/-- Witness for C7 at a concrete whitespace-only prompt. -/
theorem C7_witness :
    (some ("   ".data) = none ∨
      ∃ s, some ("   ".data) = some s ∧ trimChars s = []) ∧
    (registerPrompt ⟨[], []⟩ ⟨none, some "   ".data, "m".data, false⟩ [] [] 0
        .failure .connectError).store = ⟨[], []⟩ := by
  have h : some ("   ".data) = none ∨
      ∃ s, some ("   ".data) = some s ∧ trimChars s = [] :=
    Or.inr ⟨_, rfl, by decide⟩
  exact ⟨h, (C7_empty_prompt_rejected_early ⟨[], []⟩ none "m".data false [] [] 0
    .failure .connectError (some "   ".data) h).2.1⟩

/-- C9: a non-streaming prompt request with a non-empty prompt and no
identifier validation failure answers 201 even when the upstream call
fails; the fixed apology string is persisted as the Prompt response and
returned in the body, so at the status-code level an upstream outage is
indistinguishable from a successful generation. -/
theorem C9_failure_still_201 (st : Store) (ptext mdl freshCid freshPid : Str)
    (now : Nat) (uS : StreamUpstream) (t : Str)
    (h : trimChars ptext ≠ []) :
    (registerPrompt st ⟨none, some ptext, mdl, false⟩ freshCid freshPid now
        .failure uS).response
      = .json 201 freshCid freshPid (trimChars ptext) apology ∧
    (registerPrompt st ⟨none, some ptext, mdl, false⟩ freshCid freshPid now
        .failure uS).store.prompts
      = st.prompts ++
        [{ id := freshPid, prompt := trimChars ptext, response := apology
           model := mdl, stream := false, conversationId := freshCid
           createdAt := now }] ∧
    (∀ cid c, validateUUID cid = true → findConv st cid = some c →
      (registerPrompt st ⟨some cid, some ptext, mdl, false⟩ freshCid freshPid
          now .failure uS).response
        = .json 201 c.id freshPid (trimChars ptext) apology ∧
      (registerPrompt st ⟨some cid, some ptext, mdl, false⟩ freshCid freshPid
          now .failure uS).store.prompts
        = st.prompts ++
          [{ id := freshPid, prompt := trimChars ptext, response := apology
             model := mdl, stream := false, conversationId := c.id
             createdAt := now }]) ∧
    (∀ cid, validateUUID cid = true → findConv st cid = none →
      (registerPrompt st ⟨some cid, some ptext, mdl, false⟩ freshCid freshPid
          now .failure uS).response
        = .json 201 cid freshPid (trimChars ptext) apology ∧
      (registerPrompt st ⟨some cid, some ptext, mdl, false⟩ freshCid freshPid
          now .failure uS).store.prompts
        = st.prompts ++
          [{ id := freshPid, prompt := trimChars ptext, response := apology
             model := mdl, stream := false, conversationId := cid
             createdAt := now }]) ∧
    (registerPrompt st ⟨none, some ptext, mdl, false⟩ freshCid freshPid now
        (.ok t) uS).response
      = .json 201 freshCid freshPid (trimChars ptext) (trimChars t) := by
  refine ⟨?_, ?_, ?_, ?_, ?_⟩
  · simp [registerPrompt, afterConversation, handleNormalResponse,
      generateResponse, addPrompt, h]
  · simp [registerPrompt, afterConversation, handleNormalResponse,
      generateResponse, addPrompt, h]
  · intro cid c hv hf
    constructor <;>
      simp [registerPrompt, afterConversation, handleNormalResponse,
        generateResponse, addPrompt, h, hv, hf]
  · intro cid hv hn
    constructor <;>
      simp [registerPrompt, afterConversation, handleNormalResponse,
        generateResponse, addPrompt, h, hv, hn]
  · simp [registerPrompt, afterConversation, handleNormalResponse,
      generateResponse, addPrompt, h]

/-- Witness for C9 at a concrete prompt: identifier absent, identifier
well-formed and known, and identifier well-formed but unknown. -/
theorem C9_witness :
    trimChars "Hola".data ≠ [] ∧
    (registerPrompt ⟨[], []⟩ ⟨none, some "Hola".data, "m".data, false⟩
        "c1".data "p1".data 0 .failure .connectError).response
      = .json 201 "c1".data "p1".data (trimChars "Hola".data) apology ∧
    (registerPrompt ⟨[⟨"123e4567-e89b-12d3-a456-426614174000".data⟩], []⟩
        ⟨some "123e4567-e89b-12d3-a456-426614174000".data, some "Hola".data,
          "m".data, false⟩ "c1".data "p1".data 0 .failure .connectError).response
      = .json 201 "123e4567-e89b-12d3-a456-426614174000".data "p1".data
          (trimChars "Hola".data) apology ∧
    (registerPrompt ⟨[], []⟩
        ⟨some "123e4567-e89b-12d3-a456-426614174000".data, some "Hola".data,
          "m".data, false⟩ "c1".data "p1".data 0 .failure .connectError).response
      = .json 201 "123e4567-e89b-12d3-a456-426614174000".data "p1".data
          (trimChars "Hola".data) apology ∧
    (registerPrompt ⟨[], []⟩
        ⟨some "123e4567-e89b-12d3-a456-426614174000".data, some "Hola".data,
          "m".data, false⟩ "c1".data "p1".data 0 .failure .connectError).store.prompts
      = [{ id := "p1".data, prompt := trimChars "Hola".data, response := apology
           model := "m".data, stream := false
           conversationId := "123e4567-e89b-12d3-a456-426614174000".data
           createdAt := 0 }] :=
  ⟨by decide,
   (C9_failure_still_201 ⟨[], []⟩ "Hola".data "m".data "c1".data "p1".data 0
      .connectError [] (by decide)).1,
   ((C9_failure_still_201 ⟨[⟨"123e4567-e89b-12d3-a456-426614174000".data⟩], []⟩
      "Hola".data "m".data "c1".data "p1".data 0 .connectError []
      (by decide)).2.2.1 "123e4567-e89b-12d3-a456-426614174000".data
      ⟨"123e4567-e89b-12d3-a456-426614174000".data⟩ (by decide) rfl).1,
   ((C9_failure_still_201 ⟨[], []⟩ "Hola".data "m".data "c1".data "p1".data 0
      .connectError [] (by decide)).2.2.2.1
      "123e4567-e89b-12d3-a456-426614174000".data (by decide) rfl).1,
   ((C9_failure_still_201 ⟨[], []⟩ "Hola".data "m".data "c1".data "p1".data 0
      .connectError [] (by decide)).2.2.2.1
      "123e4567-e89b-12d3-a456-426614174000".data (by decide) rfl).2⟩

/-- C5: a prompt request supplying a well-formed conversation identifier
not yet in the store creates exactly one Conversation with that identifier,
and a subsequent lookup by that identifier returns it; a request supplying
a malformed identifier fails with 400 and creates nothing. -/
theorem C5_conversation_created_once (st : Store) (cid ptext mdl : Str)
    (strm : Bool) (freshCid freshPid : Str) (now : Nat) (uN : UpstreamSingle)
    (uS : StreamUpstream) (hp : trimChars ptext ≠ [])
    (hv : validateUUID cid = true) (hn : findConv st cid = none) :
    (registerPrompt st ⟨some cid, some ptext, mdl, strm⟩ freshCid freshPid now
        uN uS).store.convs
      = st.convs ++ [⟨cid⟩] ∧
    findConv (registerPrompt st ⟨some cid, some ptext, mdl, strm⟩ freshCid
        freshPid now uN uS).store cid
      = some ⟨cid⟩ ∧
    ((registerPrompt st ⟨some cid, some ptext, mdl, strm⟩ freshCid freshPid now
        uN uS).store.convs.filter fun c => decide (c.id = cid)).length = 1 ∧
    (∀ cid2, validateUUID cid2 = false →
      (registerPrompt st ⟨some cid2, some ptext, mdl, strm⟩ freshCid freshPid
          now uN uS).response = .badRequest 400 ∧
      (registerPrompt st ⟨some cid2, some ptext, mdl, strm⟩ freshCid freshPid
          now uN uS).store = st) := by
  have hconvs : (registerPrompt st ⟨some cid, some ptext, mdl, strm⟩ freshCid
      freshPid now uN uS).store.convs = st.convs ++ [⟨cid⟩] := by
    cases strm <;> cases uS <;>
      simp [registerPrompt, afterConversation, handleNormalResponse,
        handleStreamingResponse, addPrompt, hp, hv, hn]
  have hfilter : (st.convs.filter fun c => decide (c.id = cid)) = [] := by
    rw [List.filter_eq_nil_iff]
    intro c hc
    have := (List.find?_eq_none.mp hn) c hc
    simpa using this
  refine ⟨hconvs, ?_, ?_, ?_⟩
  · rw [findConv, hconvs, List.find?_append]
    rw [show st.convs.find? (fun c => decide (c.id = cid)) = none from hn]
    simp
  · rw [hconvs, List.filter_append, hfilter]
    simp
  · intro cid2 h2
    constructor <;> simp [registerPrompt, hp, h2]

/-- Witness for C5 at a concrete well-formed unknown identifier and a
concrete malformed identifier. -/
theorem C5_witness :
    trimChars "Hola".data ≠ [] ∧
    validateUUID "123e4567-e89b-12d3-a456-426614174000".data = true ∧
    findConv ⟨[], []⟩ "123e4567-e89b-12d3-a456-426614174000".data = none ∧
    findConv (registerPrompt ⟨[], []⟩
        ⟨some "123e4567-e89b-12d3-a456-426614174000".data, some "Hola".data,
          "m".data, false⟩ "c1".data "p1".data 0 .failure .connectError).store
        "123e4567-e89b-12d3-a456-426614174000".data
      = some ⟨"123e4567-e89b-12d3-a456-426614174000".data⟩ ∧
    validateUUID "zz".data = false ∧
    (registerPrompt ⟨[], []⟩ ⟨some "zz".data, some "Hola".data, "m".data,
        false⟩ "c1".data "p1".data 0 .failure .connectError).store = ⟨[], []⟩ := by
  refine ⟨by decide, by decide, rfl, ?_, by decide, ?_⟩
  · exact (C5_conversation_created_once ⟨[], []⟩ _ _ _ _ _ _ _ .failure
      .connectError (by decide) (by decide) rfl).2.1
  · exact ((C5_conversation_created_once ⟨[], []⟩
      "123e4567-e89b-12d3-a456-426614174000".data _ _ _ _ _ _ .failure
      .connectError (by decide) (by decide) rfl).2.2.2 "zz".data (by decide)).2

/-- C8: retrieving a conversation by a well-formed known identifier returns
its Prompts ordered by creation time ascending — the returned list is
sorted and is a permutation of whatever the storage layer holds for that
conversation, regardless of storage order. -/
theorem C8_prompts_sorted_on_retrieval (st : Store) (id : Str)
    (c : ConversationRec) (hv : validateUUID id = true)
    (hf : findConv st id = some c) :
    ∃ l, getConversation st id = .okConv 200 ⟨c.id, l⟩ ∧
      List.Sorted byCreatedAt l ∧ l.Perm (promptsOf st c.id) := by
  refine ⟨List.insertionSort byCreatedAt (promptsOf st c.id), ?_, ?_, ?_⟩
  · rw [getConversation, if_pos hv, hf]
  · exact List.sorted_insertionSort byCreatedAt _
  · exact List.perm_insertionSort byCreatedAt _

/-- Witness for C8 at a store whose rows are out of creation order. -/
theorem C8_witness :
    validateUUID "123e4567-e89b-12d3-a456-426614174000".data = true ∧
    findConv
        ⟨[⟨"123e4567-e89b-12d3-a456-426614174000".data⟩],
         [⟨"p2".data, "b".data, "rb".data, "m".data, false,
           "123e4567-e89b-12d3-a456-426614174000".data, 7⟩,
          ⟨"p1".data, "a".data, "ra".data, "m".data, false,
           "123e4567-e89b-12d3-a456-426614174000".data, 3⟩]⟩
        "123e4567-e89b-12d3-a456-426614174000".data
      = some ⟨"123e4567-e89b-12d3-a456-426614174000".data⟩ ∧
    ∃ l,
      getConversation
          ⟨[⟨"123e4567-e89b-12d3-a456-426614174000".data⟩],
           [⟨"p2".data, "b".data, "rb".data, "m".data, false,
             "123e4567-e89b-12d3-a456-426614174000".data, 7⟩,
            ⟨"p1".data, "a".data, "ra".data, "m".data, false,
             "123e4567-e89b-12d3-a456-426614174000".data, 3⟩]⟩
          "123e4567-e89b-12d3-a456-426614174000".data
        = .okConv 200 ⟨"123e4567-e89b-12d3-a456-426614174000".data, l⟩ ∧
      List.Sorted byCreatedAt l ∧
      l.Perm (promptsOf
          ⟨[⟨"123e4567-e89b-12d3-a456-426614174000".data⟩],
           [⟨"p2".data, "b".data, "rb".data, "m".data, false,
             "123e4567-e89b-12d3-a456-426614174000".data, 7⟩,
            ⟨"p1".data, "a".data, "ra".data, "m".data, false,
             "123e4567-e89b-12d3-a456-426614174000".data, 3⟩]⟩
          "123e4567-e89b-12d3-a456-426614174000".data) :=
  ⟨by decide, rfl,
   C8_prompts_sorted_on_retrieval _ _
     ⟨"123e4567-e89b-12d3-a456-426614174000".data⟩ (by decide) rfl⟩

/-- Content of a run of the data handler over parsed, non-final chunks:
the truthy fragments are forwarded in order and accumulated in order. -/
theorem foldl_stepChunk_content (cid pid : Str) (rs : List (Option Str))
    (st0 : ChunkState) :
    List.foldl (stepChunk cid pid) st0 (rs.map fun r => RawChunk.parsed r false)
      = { st0 with
          events := st0.events ++
            ((liveFrags rs).map fun f => SSEvent.chunk cid pid f)
          fullResponse := st0.fullResponse ++ (liveFrags rs).flatten } := by
  induction rs generalizing st0 with
  | nil => simp [liveFrags]
  | cons r rs ih =>
    cases r with
    | none =>
      rw [List.map_cons, List.foldl_cons]
      rw [show stepChunk cid pid st0 (.parsed none false) = st0 from rfl]
      rw [ih st0]
      simp [liveFrags]
    | some s =>
      by_cases hs : s = []
      · subst hs
        rw [List.map_cons, List.foldl_cons]
        rw [show stepChunk cid pid st0 (.parsed (some []) false) = st0 from rfl]
        rw [ih st0]
        simp [liveFrags]
      · rw [List.map_cons, List.foldl_cons]
        rw [show stepChunk cid pid st0 (.parsed (some s) false)
            = { st0 with
                fullResponse := st0.fullResponse ++ s
                events := st0.events ++ [SSEvent.chunk cid pid s] } by
          simp [stepChunk, hs]]
        rw [ih]
        simp [liveFrags, hs]

/-- One full streaming session over parsed content chunks followed by the
completion signal: chunk events for exactly the truthy fragments in order,
then the end event, the accumulator holding their concatenation, the
Prompt update performed, the response ended, and nothing escaping. -/
theorem processStream_spec (cid pid : Str) (rs : List (Option Str)) :
    processStreamingResponse cid pid
        ((rs.map fun r => RawChunk.parsed r false) ++ [RawChunk.parsed none true])
      = ⟨((liveFrags rs).map fun f => SSEvent.chunk cid pid f) ++
          [SSEvent.sessionEnd cid pid (liveFrags rs).flatten],
         (liveFrags rs).flatten, some (liveFrags rs).flatten, true, false⟩ := by
  rw [processStreamingResponse, List.foldl_append, foldl_stepChunk_content]
  simp [stepChunk]

/-- Fragments that are all present and non-empty are exactly the truthy
fragments. -/
theorem liveFrags_map_some (frags : List Str) (h : ∀ f ∈ frags, f ≠ []) :
    liveFrags (frags.map some) = frags := by
  induction frags with
  | nil => rfl
  | cons f fs ih =>
    have hf : f ≠ [] := h f (by simp)
    simp only [List.map_cons, liveFrags, List.filterMap_cons] at ih ⊢
    rw [if_neg hf]
    have := ih fun g hg => h g (by simp [hg])
    simpa [liveFrags] using this

/-- C1: in a streaming session in which the upstream delivers N chunks
carrying fragments and then signals completion, the client receives the
start event, then exactly N chunk events carrying those fragments in
upstream order, then exactly one end event; the connection is closed and
the Prompt row's response is updated to the concatenation of the fragments
in that order. -/
theorem C1_stream_order_and_persistence (st : Store)
    (cid ptext mdl pid : Str) (now : Nat) (frags : List Str)
    (h : ∀ f ∈ frags, f ≠ []) :
    (handleStreamingResponse st cid ptext mdl pid now
        (.stream ((frags.map fun f => RawChunk.parsed (some f) false) ++
          [RawChunk.parsed none true]) false)).events
      = SSEvent.start cid pid (trimChars ptext) ::
          ((frags.map fun f => SSEvent.chunk cid pid f) ++
            [SSEvent.sessionEnd cid pid frags.flatten]) ∧
    (handleStreamingResponse st cid ptext mdl pid now
        (.stream ((frags.map fun f => RawChunk.parsed (some f) false) ++
          [RawChunk.parsed none true]) false)).store.prompts
      = st.prompts ++
        [{ id := pid, prompt := trimChars ptext, response := frags.flatten
           model := mdl, stream := true, conversationId := cid
           createdAt := now }] ∧
    (handleStreamingResponse st cid ptext mdl pid now
        (.stream ((frags.map fun f => RawChunk.parsed (some f) false) ++
          [RawChunk.parsed none true]) false)).closed = true ∧
    (handleStreamingResponse st cid ptext mdl pid now
        (.stream ((frags.map fun f => RawChunk.parsed (some f) false) ++
          [RawChunk.parsed none true]) false)).crashed = false := by
  have hspec := processStream_spec cid pid (frags.map some)
  rw [liveFrags_map_some frags h, List.map_map] at hspec
  simp only [Function.comp_def] at hspec
  refine ⟨?_, ?_, ?_, ?_⟩ <;>
    simp [handleStreamingResponse, hspec, addPrompt]

/-- Witness for C1 at two concrete fragments. -/
theorem C1_witness :
    (∀ f ∈ ["Ho".data, "la!".data], f ≠ []) ∧
    (handleStreamingResponse ⟨[], []⟩ "c".data "Hola?".data "m".data "p".data 0
        (.stream ((["Ho".data, "la!".data].map fun f =>
            RawChunk.parsed (some f) false) ++
          [RawChunk.parsed none true]) false)).events
      = SSEvent.start "c".data "p".data (trimChars "Hola?".data) ::
          ((["Ho".data, "la!".data].map fun f =>
              SSEvent.chunk "c".data "p".data f) ++
            [SSEvent.sessionEnd "c".data "p".data
              ["Ho".data, "la!".data].flatten]) :=
  ⟨by decide,
   (C1_stream_order_and_persistence ⟨[], []⟩ "c".data "Hola?".data "m".data
      "p".data 0 ["Ho".data, "la!".data] (by decide)).1⟩

/-- C10: in every streaming session over parsed chunks, a chunk without a
`response` field or with an empty one produces no chunk event and
contributes nothing to the accumulator: the events are exactly the chunk
events of the truthy fragments in order followed by the end event, the
persisted text is the concatenation of only those fragments, and the
number of chunk events can be strictly smaller than the number of
upstream chunks. -/
theorem C10_empty_chunks_dropped (cid pid : Str) :
    (∀ rs : List (Option Str),
      processStreamingResponse cid pid
          ((rs.map fun r => RawChunk.parsed r false) ++
            [RawChunk.parsed none true])
        = ⟨((liveFrags rs).map fun f => SSEvent.chunk cid pid f) ++
            [SSEvent.sessionEnd cid pid (liveFrags rs).flatten],
           (liveFrags rs).flatten, some (liveFrags rs).flatten, true, false⟩) ∧
    ((processStreamingResponse cid pid
        (([some [], none].map fun r => RawChunk.parsed r false) ++
          [RawChunk.parsed none true])).events.filter isChunkEv).length
      < ([some [], none] : List (Option Str)).length := by
  refine ⟨fun rs => processStream_spec cid pid rs, ?_⟩
  exact Nat.zero_lt_two

/-- C3 divergence: when the upstream stream errors after delivering a chunk
(mid-stream, after the start event and before completion), the code does
not emit an SSE error event and does not end the client response: the
installed error listener rethrows outside the awaited promise, so the catch
in handleStreamingResponse never runs and the exception escapes to the
process. Only the final part of the claim holds: the Prompt row is left
with its empty response. -/
theorem C3_midstream_error_divergence (st : Store)
    (cid ptext mdl pid : Str) (now : Nat) :
    (handleStreamingResponse st cid ptext mdl pid now
        (.stream [RawChunk.parsed (some "Ho".data) false] true)).events
      = [SSEvent.start cid pid (trimChars ptext),
         SSEvent.chunk cid pid "Ho".data] ∧
    SSEvent.sseError ∉
      (handleStreamingResponse st cid ptext mdl pid now
          (.stream [RawChunk.parsed (some "Ho".data) false] true)).events ∧
    (handleStreamingResponse st cid ptext mdl pid now
        (.stream [RawChunk.parsed (some "Ho".data) false] true)).closed
      = false ∧
    (handleStreamingResponse st cid ptext mdl pid now
        (.stream [RawChunk.parsed (some "Ho".data) false] true)).crashed
      = true ∧
    (handleStreamingResponse st cid ptext mdl pid now
        (.stream [RawChunk.parsed (some "Ho".data) false] true)).store.prompts
      = st.prompts ++
        [{ id := pid, prompt := trimChars ptext, response := [], model := mdl
           stream := true, conversationId := cid, createdAt := now }] := by
  refine ⟨rfl, ?_, rfl, rfl, rfl⟩
  rw [show (handleStreamingResponse st cid ptext mdl pid now
      (.stream [RawChunk.parsed (some "Ho".data) false] true)).events
    = [SSEvent.start cid pid (trimChars ptext),
       SSEvent.chunk cid pid "Ho".data] from rfl]
  simp

/-- C4: for every sentiment request whose upstream output parses, the score
stored in the SentimentAnalysis row and returned to the client is the
clamp of the raw parsed score into 0..10: it always lies in that interval,
a raw score below 0 is stored as 0 and a raw score above 10 as 10. -/
theorem C4_sentiment_score_clamped (text raw mdl fid : Str) (j : Json)
    (r : Rat) (sv : Json) (ht : trimChars text ≠ [])
    (hparse : jsonParse (stripFences (generateResponse (.ok raw))) = some j)
    (hscore : getField j "score".data = some (.jnum r))
    (hsent : getField j "sentiment".data = some sv)
    (htr : jsTruthy sv = true) :
    analyzeSentiment (some text) mdl fid (.ok raw)
      = .created 201
          { id := fid, text := text, score := clampScore r, sentiment := sv
            model := mdl, respostaCompleta := generateResponse (.ok raw) }
          (clampScore r) ∧
    0 ≤ clampScore r ∧ clampScore r ≤ 10 ∧
    (r < 0 → clampScore r = 0) ∧ (10 < r → clampScore r = 10) := by
  have hso : sentimentOfResponse (generateResponse (.ok raw))
      = some (clampScore r, sv) := by
    simp only [sentimentOfResponse, hparse, hscore, hsent, htr, if_true]
  refine ⟨?_, ?_, ?_, ?_, ?_⟩
  · simp only [analyzeSentiment, if_neg ht, hso]
  · exact le_max_left 0 _
  · exact max_le (by norm_num) (min_le_left _ _)
  · intro hr
    rw [clampScore, min_eq_right (le_of_lt (lt_of_lt_of_le hr (by norm_num)))]
    exact max_eq_left (le_of_lt hr)
  · intro hr
    rw [clampScore, min_eq_left (le_of_lt hr)]
    exact max_eq_right (by norm_num)

/-- Witness for C4 at the raw score 15 of the spec example, stored as 10. -/
theorem C4_witness :
    trimChars "Molt bo".data ≠ [] ∧
    jsonParse (stripFences (generateResponse
        (.ok "\x7b\"score\":15,\"sentiment\":\"positiu\"\x7d".data)))
      = some (.jobj [("score".data, .jnum 15),
                     ("sentiment".data, .jstr "positiu".data)]) ∧
    clampScore 15 = 10 ∧
    analyzeSentiment (some "Molt bo".data) "m".data "s1".data
        (.ok "\x7b\"score\":15,\"sentiment\":\"positiu\"\x7d".data)
      = .created 201
          { id := "s1".data, text := "Molt bo".data, score := 10
            sentiment := .jstr "positiu".data, model := "m".data
            respostaCompleta := generateResponse
              (.ok "\x7b\"score\":15,\"sentiment\":\"positiu\"\x7d".data) }
          10 := by
  have hc : clampScore 15 = 10 := by decide
  have h := (C4_sentiment_score_clamped "Molt bo".data
    "\x7b\"score\":15,\"sentiment\":\"positiu\"\x7d".data "m".data "s1".data
    (.jobj [("score".data, .jnum 15), ("sentiment".data, .jstr "positiu".data)])
    15 (.jstr "positiu".data) (by decide) rfl rfl rfl rfl).1
  rw [hc] at h
  exact ⟨by decide, rfl, hc, h⟩

/-- A list whose first and last characters fail `p` is unchanged by
`trimBy p`. -/
theorem trimBy_eq_self (p : Char → Bool) (l : Str)
    (hh : ∀ c, l.head? = some c → p c = false)
    (hl : ∀ c, l.getLast? = some c → p c = false) : trimBy p l = l := by
  have h1 : l.dropWhile p = l := by
    cases l with
    | nil => rfl
    | cons c cs =>
      rw [List.dropWhile_cons, if_neg]
      simp [hh c rfl]
  rw [trimBy, h1]
  have h2 : l.reverse.dropWhile p = l.reverse := by
    cases hrev : l.reverse with
    | nil => rfl
    | cons c cs =>
      rw [List.dropWhile_cons, if_neg]
      have hc : l.getLast? = some c := by
        rw [← List.head?_reverse, hrev]
        rfl
      simp [hl c hc]
  rw [h2, List.reverse_reverse]

/-- Appending one trimmable character does not change the trim. -/
theorem trimBy_append_ws (p : Char → Bool) (t : Str) (a : Char)
    (ha : p a = true) : trimBy p (t ++ [a]) = trimBy p t := by
  rw [trimBy, trimBy, List.dropWhile_append]
  by_cases he : (t.dropWhile p).isEmpty
  · rw [if_pos he]
    have h0 : t.dropWhile p = [] := by
      cases h : t.dropWhile p
      · rfl
      · rw [h] at he
        simp at he
    rw [h0]
    simp [List.dropWhile_cons, ha]
  · rw [if_neg he]
    rw [List.reverse_append]
    have : ([a] : Str).reverse = [a] := rfl
    rw [this]
    rw [show ([a] : Str) ++ (t.dropWhile p).reverse
        = a :: (t.dropWhile p).reverse from rfl]
    rw [List.dropWhile_cons, if_pos ha]

/-- A list starting with a character other than a backtick does not start
with the three-backtick fence. -/
theorem startsT3_of_head_ne (c : Char) (cs : Str) (h : c ≠ btick) :
    startsT3 (c :: cs) = false := by
  rw [startsT3]
  apply decide_eq_false
  intro heq
  rw [show (c :: cs).take 3 = c :: cs.take 2 from rfl] at heq
  injection heq with h1 _
  exact h h1

/-- A list starting with a character other than a backtick does not start
with the ```json fence. -/
theorem startsTJson_of_head_ne (c : Char) (cs : Str) (h : c ≠ btick) :
    startsTJson (c :: cs) = false := by
  rw [startsTJson]
  apply decide_eq_false
  intro heq
  rw [show (c :: cs).take 7 = c :: cs.take 6 from rfl] at heq
  injection heq with h1 _
  exact h h1

/-- Starting with the ```json fence requires starting with the
three-backtick fence. -/
theorem startsTJson_imp_startsT3 (l : Str) (h : startsTJson l = true) :
    startsT3 l = true := by
  rw [startsTJson, decide_eq_true_iff] at h
  rw [startsT3, decide_eq_true_iff]
  have h3 : l.take 3 = (l.take 7).take 3 := by
    rw [List.take_take]
    norm_num
  rw [h3, h]
  rfl

/-- Appending a newline-led suffix to a text that does not start with the
three-backtick fence cannot make it start with one. -/
theorem startsT3_cons_append_nl (c : Char) (cs u : Str)
    (h : startsT3 (c :: cs) = false) :
    startsT3 (c :: (cs ++ '\n' :: u)) = false := by
  rcases cs with _ | ⟨a, _ | ⟨b, tl⟩⟩
  · rw [startsT3]
    apply decide_eq_false
    intro heq
    rw [show ((c :: (([] : Str) ++ '\n' :: u)).take 3)
        = c :: '\n' :: u.take 1 from rfl] at heq
    injection heq with h1 h2
    injection h2 with h3 _
    exact absurd h3 (by decide)
  · rw [startsT3]
    apply decide_eq_false
    intro heq
    rw [show ((c :: (([a] : Str) ++ '\n' :: u)).take 3)
        = c :: a :: ['\n'] from rfl] at heq
    injection heq with h1 h2
    injection h2 with h3 h4
    injection h4 with h5 _
    exact absurd h5 (by decide)
  · exact h

/-- Appending a newline-led suffix to a text that does not start with the
three-backtick fence cannot make it start with the ```json fence. -/
theorem startsTJson_cons_append_nl (c : Char) (cs u : Str)
    (h : startsT3 (c :: cs) = false) :
    startsTJson (c :: (cs ++ '\n' :: u)) = false := by
  cases hb : startsTJson (c :: (cs ++ '\n' :: u))
  · rfl
  · exfalso
    have h3 := startsTJson_imp_startsT3 _ hb
    rw [startsT3_cons_append_nl c cs u h] at h3
    simp at h3

/-- The three-backtick global replace over a text containing no triple
backtick, followed by the closing fence: only the closing fence is
removed, and the newline before it survives. -/
theorem repT3Fuel_no_ticks (t : Str) (h : hasTicks3 t = false) :
    ∀ n, t.length + 4 ≤ n →
      repT3Fuel n (t ++ ['\n', btick, btick, btick]) = t ++ ['\n'] := by
  induction t with
  | nil =>
    intro n hn
    obtain ⟨m, rfl⟩ : ∃ m, n = m + 4 := ⟨n - 4, by omega⟩
    rfl
  | cons c cs ih =>
    intro n hn
    obtain ⟨m, rfl⟩ : ∃ m, n = m + 1 := ⟨n - 1, by omega⟩
    have hor := Bool.or_eq_false_iff.mp (by rw [← hasTicks3]; exact h)
    have hg : startsT3 (c :: (cs ++ '\n' :: [btick, btick, btick])) = false :=
      startsT3_cons_append_nl c cs _ hor.1
    rw [List.cons_append]
    rw [show repT3Fuel (m + 1) (c :: (cs ++ '\n' :: [btick, btick, btick]))
        = if startsT3 (c :: (cs ++ '\n' :: [btick, btick, btick])) then
            repT3Fuel m
              (((cs ++ '\n' :: [btick, btick, btick]).drop 2).dropWhile isJsWsChar)
          else c :: repT3Fuel m (cs ++ '\n' :: [btick, btick, btick]) from rfl]
    rw [hg, if_neg (by decide : ¬(false = true))]
    have hlen : cs.length + 4 ≤ m := by
      simp only [List.length_cons] at hn
      omega
    rw [show (cs ++ '\n' :: [btick, btick, btick])
        = cs ++ ['\n', btick, btick, btick] from rfl]
    rw [ih hor.2 m hlen]
    rfl

/-- The ```json global replace leaves a text with no triple backtick,
followed by the closing fence, unchanged. -/
theorem repTJsonFuel_no_ticks (t : Str) (h : hasTicks3 t = false) :
    ∀ n, t.length + 5 ≤ n →
      repTJsonFuel n (t ++ ['\n', btick, btick, btick])
        = t ++ ['\n', btick, btick, btick] := by
  induction t with
  | nil =>
    intro n hn
    obtain ⟨m, rfl⟩ : ∃ m, n = m + 5 := ⟨n - 5, by omega⟩
    rfl
  | cons c cs ih =>
    intro n hn
    obtain ⟨m, rfl⟩ : ∃ m, n = m + 1 := ⟨n - 1, by omega⟩
    have hor := Bool.or_eq_false_iff.mp (by rw [← hasTicks3]; exact h)
    have hg : startsTJson (c :: (cs ++ '\n' :: [btick, btick, btick])) = false :=
      startsTJson_cons_append_nl c cs _ hor.1
    rw [List.cons_append]
    rw [show repTJsonFuel (m + 1) (c :: (cs ++ '\n' :: [btick, btick, btick]))
        = if startsTJson (c :: (cs ++ '\n' :: [btick, btick, btick])) then
            repTJsonFuel m
              (((cs ++ '\n' :: [btick, btick, btick]).drop 6).dropWhile isJsWsChar)
          else c :: repTJsonFuel m (cs ++ '\n' :: [btick, btick, btick]) from rfl]
    rw [hg, if_neg (by decide : ¬(false = true))]
    have hlen : cs.length + 5 ≤ m := by
      simp only [List.length_cons] at hn
      omega
    rw [show (cs ++ '\n' :: [btick, btick, btick])
        = cs ++ ['\n', btick, btick, btick] from rfl]
    rw [ih hor.2 m hlen]

/-- The fenced forms are already trimmed: they start and end with a
backtick. -/
theorem trimChars_fenceJson (t : Str) : trimChars (fenceJson t) = fenceJson t := by
  apply trimBy_eq_self
  · intro c hc
    rw [show (fenceJson t).head? = some btick from rfl] at hc
    injection hc with hc
    subst hc
    decide
  · intro c hc
    have hshape : fenceJson t
        = (btick :: btick :: btick :: 'j' :: 's' :: 'o' :: 'n' :: '\n' ::
            (t ++ ['\n', btick, btick])) ++ [btick] := by
      simp [fenceJson]
    rw [hshape, List.getLast?_concat] at hc
    injection hc with hc
    subst hc
    decide

/-- The plainly fenced form is already trimmed. -/
theorem trimChars_fencePlain (t : Str) : trimChars (fencePlain t) = fencePlain t := by
  apply trimBy_eq_self
  · intro c hc
    rw [show (fencePlain t).head? = some btick from rfl] at hc
    injection hc with hc
    subst hc
    decide
  · intro c hc
    have hshape : fencePlain t
        = (btick :: btick :: btick :: '\n' :: (t ++ ['\n', btick, btick])) ++
            [btick] := by
      simp [fencePlain]
    rw [hshape, List.getLast?_concat] at hc
    injection hc with hc
    subst hc
    decide

/-- The plainly fenced form does not carry the ```json marker. -/
theorem startsTJson_fencePlain (t : Str) : startsTJson (fencePlain t) = false := by
  rw [startsTJson]
  apply decide_eq_false
  intro heq
  rw [show (fencePlain t).take 7
      = btick :: btick :: btick :: '\n' ::
          (t ++ ['\n', btick, btick, btick]).take 3 from rfl] at heq
  injection heq with h1 h2
  injection h2 with h3 h4
  injection h4 with h5 h6
  injection h6 with h7 _
  exact absurd h7 (by decide)

/-- Stripping the fences of a ```json-fenced brace-headed text with no
inner triple backtick yields the text followed by one newline. -/
theorem stripFences_fenceJson (t : Str) (hticks : hasTicks3 t = false)
    (hhead : t.head? = some obrace) :
    stripFences (fenceJson t) = t ++ ['\n'] := by
  obtain ⟨t0, rfl⟩ : ∃ t0, t = obrace :: t0 := by
    cases t with
    | nil => simp at hhead
    | cons c cs =>
      rw [show (c :: cs).head? = some c from rfl] at hhead
      injection hhead with hc
      subst hc
      exact ⟨cs, rfl⟩
  have h1 : repTJson (fenceJson (obrace :: t0))
      = (obrace :: t0) ++ ['\n', btick, btick, btick] := by
    rw [repTJson]
    rw [show (fenceJson (obrace :: t0)).length = t0.length + 13 by
      simp [fenceJson]]
    rw [show repTJsonFuel (t0.length + 13) (fenceJson (obrace :: t0))
        = repTJsonFuel (t0.length + 12)
            ((obrace :: t0) ++ ['\n', btick, btick, btick]) from rfl]
    exact repTJsonFuel_no_ticks (obrace :: t0) hticks _ (by simp)
  have h2 : repT3 ((obrace :: t0) ++ ['\n', btick, btick, btick])
      = (obrace :: t0) ++ ['\n'] := by
    rw [repT3]
    rw [show ((obrace :: t0) ++ ['\n', btick, btick, btick]).length
        = t0.length + 5 by simp]
    exact repT3Fuel_no_ticks (obrace :: t0) hticks _ (by simp)
  simp only [stripFences, trimChars_fenceJson]
  rw [show startsTJson (fenceJson (obrace :: t0)) = true from rfl]
  rw [if_pos rfl, h1, h2]

/-- Stripping the fences of a plainly fenced brace-headed text with no
inner triple backtick yields the text followed by one newline. -/
theorem stripFences_fencePlain (t : Str) (hticks : hasTicks3 t = false)
    (hhead : t.head? = some obrace) :
    stripFences (fencePlain t) = t ++ ['\n'] := by
  obtain ⟨t0, rfl⟩ : ∃ t0, t = obrace :: t0 := by
    cases t with
    | nil => simp at hhead
    | cons c cs =>
      rw [show (c :: cs).head? = some c from rfl] at hhead
      injection hhead with hc
      subst hc
      exact ⟨cs, rfl⟩
  have h2 : repT3 (fencePlain (obrace :: t0)) = (obrace :: t0) ++ ['\n'] := by
    rw [repT3]
    rw [show (fencePlain (obrace :: t0)).length = t0.length + 9 by
      simp [fencePlain]]
    rw [show repT3Fuel (t0.length + 9) (fencePlain (obrace :: t0))
        = repT3Fuel (t0.length + 8)
            ((obrace :: t0) ++ ['\n', btick, btick, btick]) from rfl]
    exact repT3Fuel_no_ticks (obrace :: t0) hticks _ (by simp)
  simp only [stripFences, trimChars_fencePlain]
  rw [startsTJson_fencePlain]
  rw [if_neg (by decide : ¬(false = true))]
  rw [show startsT3 (fencePlain (obrace :: t0)) = true from rfl]
  rw [if_pos rfl, h2]

/-- Stripping the fences of an unfenced brace-delimited text changes
nothing. -/
theorem stripFences_unfenced (t : Str) (hhead : t.head? = some obrace)
    (hlast : t.getLast? = some cbrace) : stripFences t = t := by
  have htr : trimChars t = t := by
    apply trimBy_eq_self
    · intro c hc
      rw [hhead] at hc
      injection hc with hc
      subst hc
      decide
    · intro c hc
      rw [hlast] at hc
      injection hc with hc
      subst hc
      decide
  obtain ⟨t0, rfl⟩ : ∃ t0, t = obrace :: t0 := by
    cases t with
    | nil => simp at hhead
    | cons c cs =>
      rw [show (c :: cs).head? = some c from rfl] at hhead
      injection hhead with hc
      subst hc
      exact ⟨cs, rfl⟩
  simp only [stripFences, htr]
  rw [startsTJson_of_head_ne obrace t0 (by decide)]
  rw [if_neg (by decide : ¬(false = true))]
  rw [startsT3_of_head_ne obrace t0 (by decide)]
  rw [if_neg (by decide : ¬(false = true))]

/-- A trailing newline is invisible to `JSON.parse`. -/
theorem jsonParse_append_nl (t : Str) : jsonParse (t ++ ['\n']) = jsonParse t := by
  simp only [jsonParse, trimJson]
  rw [trimBy_append_ws isJsonWs t '\n' (by decide)]

/-- C6 counterexample: the claim as stated fails. For the JSON object text
`cexText`, whose `sentiment` string contains a triple backtick, the global
fence-stripping replaces also fire inside the JSON string, so the fenced
and unfenced inputs parse to different sentiment values. -/
theorem C6_counterexample :
    sentimentOfResponse (fenceJson cexText) ≠ sentimentOfResponse cexText := by
  have h1 : sentimentOfResponse (fenceJson cexText)
      = some (7, .jstr "ab".data) := rfl
  have h2 : sentimentOfResponse cexText
      = some (7, .jstr "a```b".data) := rfl
  rw [h1, h2]
  intro h
  have h3 := Option.some.inj h
  have h4 := congrArg Prod.snd h3
  have h5 : "ab".data = "a```b".data := by injection h4
  exact absurd h5 (by decide)

/-- C6 (amended): for every JSON object text (brace-delimited) that
contains no triple-backtick sequence, the sentiment parser applied to the
text wrapped in ```json or plain ``` code-fence markup produces the same
parsed score/sentiment result as applied to the unfenced text. -/
theorem C6_fence_stripping_transparent (t : Str)
    (hticks : hasTicks3 t = false) (hhead : t.head? = some obrace)
    (hlast : t.getLast? = some cbrace) :
    sentimentOfResponse (fenceJson t) = sentimentOfResponse t ∧
    sentimentOfResponse (fencePlain t) = sentimentOfResponse t := by
  have key1 : jsonParse (stripFences (fenceJson t))
      = jsonParse (stripFences t) := by
    rw [stripFences_fenceJson t hticks hhead, stripFences_unfenced t hhead hlast]
    exact jsonParse_append_nl t
  have key2 : jsonParse (stripFences (fencePlain t))
      = jsonParse (stripFences t) := by
    rw [stripFences_fencePlain t hticks hhead, stripFences_unfenced t hhead hlast]
    exact jsonParse_append_nl t
  constructor
  · rw [sentimentOfResponse, sentimentOfResponse, key1]
  · rw [sentimentOfResponse, sentimentOfResponse, key2]

/-- Witness for the amended C6 at the JSON object text of the spec
example. -/
theorem C6_witness :
    hasTicks3 "\x7b\"score\":7,\"sentiment\":\"positiu\"\x7d".data = false ∧
    ("\x7b\"score\":7,\"sentiment\":\"positiu\"\x7d".data : Str).head?
      = some obrace ∧
    ("\x7b\"score\":7,\"sentiment\":\"positiu\"\x7d".data : Str).getLast?
      = some cbrace ∧
    sentimentOfResponse
        (fenceJson "\x7b\"score\":7,\"sentiment\":\"positiu\"\x7d".data)
      = sentimentOfResponse "\x7b\"score\":7,\"sentiment\":\"positiu\"\x7d".data ∧
    sentimentOfResponse
        (fencePlain "\x7b\"score\":7,\"sentiment\":\"positiu\"\x7d".data)
      = sentimentOfResponse "\x7b\"score\":7,\"sentiment\":\"positiu\"\x7d".data ∧
    sentimentOfResponse "\x7b\"score\":7,\"sentiment\":\"positiu\"\x7d".data
      = some (7, .jstr "positiu".data) := by
  have h := C6_fence_stripping_transparent
    "\x7b\"score\":7,\"sentiment\":\"positiu\"\x7d".data
    (by decide) (by decide) (by decide)
  exact ⟨by decide, by decide, by decide, h.1, h.2, rfl⟩
